import Mathlib

/-!
Shallow embedding of src/plugins/dellvednn/include/cudnn_conv_driver.hpp
(repository GPUs/dellve_benchend).

The driver class CudnnConvDriver owns a method tag, a repeat count, a problem
catalog, a device list and a cuRAND generator; run(problemNumber) resolves a
problem shape, builds a CudnnConv engine and dispatches to one of three
measurement routines (forward / backwardData / backwardFilter), each of which
allocates three device buffers, performs a warm-up submission, a device
synchronization, a timed loop of num_repeats_ submissions, a second device
synchronization, and returns the elapsed microseconds divided by num_repeats_
truncated to an int.

Modelling choices:
- Device and clock interactions are recorded as an explicit event trace.
- steady_clock timestamps are integers counting nanoseconds; the C++ expression
  duration<double, micro>(end - start).count() becomes exact rational
  arithmetic, and static_cast<int> of a double becomes truncation toward zero.
- External status codes returned by cudaFree and the curand calls (which the
  constructor discards) are passed in as oracle inputs.
- The external engine capability get_output_dims (class CudnnConv, out of
  scope of the core) is a function parameter of the routines.
- The cuRAND generator state is modelled as a seed plus a call counter that
  each random buffer fill advances.
-/

/-- C++ static_cast to int applied to a double value: truncation toward zero. -/
def cppTrunc (q : ℚ) : Int := if 0 ≤ q then ⌊q⌋ else ⌈q⌉

/-- Underlying integer value of CudnnConvMethod::FORWARD (enum class over int). -/
def methodFORWARD : Int := 0

/-- Underlying integer value of CudnnConvMethod::BACKWARD_DATA. -/
def methodBACKWARD_DATA : Int := 1

/-- Underlying integer value of CudnnConvMethod::BACKWARD_FILTER. -/
def methodBACKWARD_FILTER : Int := 2

/-- cudaSuccess status value. -/
def cudaSuccess : Int := 0

/-- CURAND_STATUS_SUCCESS status value. -/
def curandStatusSuccess : Int := 0

/-- One problem of the catalog: the eleven integers unpacked by
createCudnnConv in the order (w, h, c, n, k, r, s, pad_w, pad_h, wstride,
hstride). -/
structure ProblemShape where
  w : Int
  h : Int
  c : Int
  n : Int
  k : Int
  r : Int
  s : Int
  pad_w : Int
  pad_h : Int
  wstride : Int
  hstride : Int
deriving DecidableEq

/-- The engine handle: class CudnnConv is external to the core; the driver only
ever constructs it from the eleven resolved shape parameters and a device
number. -/
structure CudnnConv where
  w : Int
  h : Int
  c : Int
  n : Int
  k : Int
  r : Int
  s : Int
  pad_w : Int
  pad_h : Int
  wstride : Int
  hstride : Int
  deviceNumber : Int
deriving DecidableEq

/-- Errors surfaced by the driver model. -/
inductive DriverError where
  | indexError
  | constructionError
deriving DecidableEq

/-- Observable device and clock events emitted during a run call. -/
inductive Event where
  | engineCreate (conv : CudnnConv)
  | initPlan (m : Int)
  | allocRand (shape : List Int)
  | allocZeros (shape : List Int)
  | submit (m : Int)
  | sync
  | clockStart (t : Int)
  | clockStop (t : Int)
deriving DecidableEq

/-- The private members of class CudnnConvDriver. -/
structure DriverState where
  num_repeats_ : Int
  curand_seed_ : Nat
  curand_pos_ : Nat
  method_ : Int
  problems_ : List ProblemShape
  k_ : Int
  c_ : Int
  r_ : Int
  s_ : Int
  n_ : Int
  w_ : Int
  h_ : Int
  pad_w_ : Int
  pad_h_ : Int
  wstride_ : Int
  hstride_ : Int
  gpus_ : List Int
deriving DecidableEq

/-- Whether a constructor call yielded a driver object. -/
def isConstructed : Except DriverError DriverState → Bool
  | .ok _ => true
  | .error _ => false

/-- The CudnnConvDriver constructor: stores the configuration, calls
cudaFree(0), curandCreateGenerator and curandSetPseudoRandomGeneratorSeed with
seed 42, and discards all three status codes, so it never fails. The scratch
shape members are default-initialized in the model (the C++ leaves them
indeterminate until createCudnnConv assigns them). -/
def mkCudnnConvDriver (method : Int) (problems : List ProblemShape)
    (numRuns : Int) (gpus : List Int)
    (cudaFreeStatus curandCreateStatus curandSeedStatus : Int) :
    Except DriverError DriverState :=
  .ok { num_repeats_ := numRuns
        curand_seed_ := 42
        curand_pos_ := 0
        method_ := method
        problems_ := problems
        k_ := 0, c_ := 0, r_ := 0, s_ := 0
        n_ := 0, w_ := 0, h_ := 0
        pad_w_ := 0, pad_h_ := 0
        wstride_ := 0, hstride_ := 0
        gpus_ := gpus }

/-- problemNumber is a valid zero-based index into the catalog. -/
def validIndex (problems : List ProblemShape) (i : Int) : Prop :=
  0 ≤ i ∧ i.toNat < problems.length

instance (problems : List ProblemShape) (i : Int) :
    Decidable (validIndex problems i) := by
  unfold validIndex; infer_instance

/-- Modelled from the spec: class CudnnConvProblemSet (cudnn_problem_set.hpp is
not under src/). The spec describes the catalog as an ordered collection of
shape tuples with the consumed capability get(index) returning the ProblemShape
at a valid index and an IndexError outside the valid range. -/
def problemSetGet (problems : List ProblemShape) (i : Int) :
    Except DriverError ProblemShape :=
  if h : validIndex problems i then .ok (problems.get ⟨i.toNat, h.2⟩)
  else .error .indexError

/-- The CudnnConv constructor call inside createCudnnConv, fed the eleven
unpacked parameters and the device number. -/
def convOf (p : ProblemShape) (deviceNumber : Int) : CudnnConv :=
  { w := p.w, h := p.h, c := p.c, n := p.n, k := p.k, r := p.r, s := p.s
    pad_w := p.pad_w, pad_h := p.pad_h
    wstride := p.wstride, hstride := p.hstride
    deviceNumber := deviceNumber }

/-- The std::tie assignment in createCudnnConv: unpack the resolved problem
into the scratch members of the driver. -/
def assignShape (st : DriverState) (p : ProblemShape) : DriverState :=
  { st with w_ := p.w, h_ := p.h, c_ := p.c, n_ := p.n, k_ := p.k
            r_ := p.r, s_ := p.s, pad_w_ := p.pad_w, pad_h_ := p.pad_h
            wstride_ := p.wstride, hstride_ := p.hstride }

/-- createCudnnConv: resolve the problem via the catalog, store the unpacked
parameters in the scratch members, and build the engine. An IndexError from
the lookup propagates before any of that happens. -/
def createCudnnConv (st : DriverState) (problemNumber deviceNumber : Int) :
    Except DriverError (CudnnConv × DriverState) :=
  match problemSetGet st.problems_ problemNumber with
  | .error e => .error e
  | .ok p => .ok (convOf p deviceNumber, assignShape st p)

/-- The elapsed time between two nanosecond timestamps, expressed in
microseconds, as computed by duration with a double representation and a
micro period. -/
def elapsedMicro (tStart tStop : Int) : ℚ := ((tStop - tStart : Int) : ℚ) / 1000

/-- The reduction step shared by the three routines: elapsed microseconds
divided by the repeat count, truncated to int. -/
def reduceTime (tStart tStop reps : Int) : Int :=
  cppTrunc (elapsedMicro tStart tStop / (reps : ℚ))

/-- The measurement routine forward: allocate filter and input (random) and
output (zeros, shaped by get_output_dims), warm up, synchronize, read the
clock, submit num_repeats_ times, synchronize, read the clock, reduce. -/
def forward (st : DriverState) (conv : CudnnConv)
    (getOutputDims : CudnnConv → List Int) (tStart tStop : Int) :
    Int × List Event × DriverState :=
  (reduceTime tStart tStop st.num_repeats_,
   [Event.allocRand [st.r_, st.s_, st.c_, st.k_],
    Event.allocRand [st.w_, st.h_, st.c_, st.n_],
    Event.allocZeros (getOutputDims conv),
    Event.submit methodFORWARD, Event.sync, Event.clockStart tStart]
   ++ List.replicate st.num_repeats_.toNat (Event.submit methodFORWARD)
   ++ [Event.sync, Event.clockStop tStop],
   { st with curand_pos_ := st.curand_pos_ + 2 })

/-- The measurement routine backwardFilter: allocate input (random) and delta
(random, shaped by get_output_dims) and dW (zeros), then the same warm-up,
synchronization and timing skeleton as forward. -/
def backwardFilter (st : DriverState) (conv : CudnnConv)
    (getOutputDims : CudnnConv → List Int) (tStart tStop : Int) :
    Int × List Event × DriverState :=
  (reduceTime tStart tStop st.num_repeats_,
   [Event.allocRand [st.w_, st.h_, st.c_, st.n_],
    Event.allocRand (getOutputDims conv),
    Event.allocZeros [st.r_, st.s_, st.c_, st.k_],
    Event.submit methodBACKWARD_FILTER, Event.sync, Event.clockStart tStart]
   ++ List.replicate st.num_repeats_.toNat (Event.submit methodBACKWARD_FILTER)
   ++ [Event.sync, Event.clockStop tStop],
   { st with curand_pos_ := st.curand_pos_ + 2 })

/-- The measurement routine backwardData: allocate filter (random) and delta
(random, shaped by get_output_dims) and dX (zeros), then the same warm-up,
synchronization and timing skeleton as forward. -/
def backwardData (st : DriverState) (conv : CudnnConv)
    (getOutputDims : CudnnConv → List Int) (tStart tStop : Int) :
    Int × List Event × DriverState :=
  (reduceTime tStart tStop st.num_repeats_,
   [Event.allocRand [st.r_, st.s_, st.c_, st.k_],
    Event.allocRand (getOutputDims conv),
    Event.allocZeros [st.w_, st.h_, st.c_, st.n_],
    Event.submit methodBACKWARD_DATA, Event.sync, Event.clockStart tStart]
   ++ List.replicate st.num_repeats_.toNat (Event.submit methodBACKWARD_DATA)
   ++ [Event.sync, Event.clockStop tStop],
   { st with curand_pos_ := st.curand_pos_ + 2 })

/-- run(problemNumber): build the engine via createCudnnConv with the first
configured device, then switch on method_, initializing the matching execution
plan and running the matching routine; the default branch of the switch
returns 0 having done nothing past engine construction. The two timestamps the
chosen routine will read from steady_clock are oracle inputs. -/
def run (st : DriverState) (getOutputDims : CudnnConv → List Int)
    (tStart tStop : Int) (problemNumber : Int) :
    Except DriverError Int × List Event × DriverState :=
  match createCudnnConv st problemNumber st.gpus_.headI with
  | .error e => (.error e, [], st)
  | .ok (conv, st1) =>
    if st1.method_ = methodFORWARD then
      let res := forward st1 conv getOutputDims tStart tStop
      (.ok res.1,
       Event.engineCreate conv :: Event.initPlan methodFORWARD :: res.2.1,
       res.2.2)
    else if st1.method_ = methodBACKWARD_DATA then
      let res := backwardData st1 conv getOutputDims tStart tStop
      (.ok res.1,
       Event.engineCreate conv :: Event.initPlan methodBACKWARD_DATA :: res.2.1,
       res.2.2)
    else if st1.method_ = methodBACKWARD_FILTER then
      let res := backwardFilter st1 conv getOutputDims tStart tStop
      (.ok res.1,
       Event.engineCreate conv :: Event.initPlan methodBACKWARD_FILTER :: res.2.1,
       res.2.2)
    else (.ok 0, [Event.engineCreate conv], st1)

/-- Submission, synchronization and clock events, the ones whose ordering the
timing protocol is about. -/
def isDeviceClockEvent : Event → Bool
  | .submit _ => true
  | .sync => true
  | .clockStart _ => true
  | .clockStop _ => true
  | _ => false

/-- Buffer allocation events. -/
def isAllocEvent : Event → Bool
  | .allocRand _ => true
  | .allocZeros _ => true
  | _ => false

/-- Engine construction events. -/
def isEngineCreate : Event → Bool
  | .engineCreate _ => true
  | _ => false

/-- Fallback shape for the total catalog accessor (never reached on a valid
index). -/
def defaultShape : ProblemShape := ⟨0, 0, 0, 0, 0, 0, 0, 0, 0, 0, 0⟩

/-- The problem the catalog resolves for index i, as a total function. -/
def problemAt (st : DriverState) (i : Int) : ProblemShape :=
  st.problems_.getD i.toNat defaultShape

theorem problemSetGet_valid (st : DriverState) (i : Int)
    (hi : validIndex st.problems_ i) :
    problemSetGet st.problems_ i = .ok (problemAt st i) := by
  unfold problemSetGet problemAt
  rw [dif_pos hi, List.getD_eq_get _ _ hi.2]

theorem createCudnnConv_valid (st : DriverState) (d i : Int)
    (hi : validIndex st.problems_ i) :
    createCudnnConv st i d =
      .ok (convOf (problemAt st i) d, assignShape st (problemAt st i)) := by
  unfold createCudnnConv
  rw [problemSetGet_valid st i hi]

theorem createCudnnConv_invalid (st : DriverState) (d i : Int)
    (hi : ¬ validIndex st.problems_ i) :
    createCudnnConv st i d = .error .indexError := by
  unfold createCudnnConv problemSetGet
  rw [dif_neg hi]

theorem assignShape_method (st : DriverState) (p : ProblemShape) :
    (assignShape st p).method_ = st.method_ := rfl

theorem run_valid_FORWARD (st : DriverState) (god : CudnnConv → List Int)
    (tStart tStop i : Int) (hi : validIndex st.problems_ i)
    (hm : st.method_ = methodFORWARD) :
    run st god tStart tStop i =
      (.ok (forward (assignShape st (problemAt st i))
              (convOf (problemAt st i) st.gpus_.headI) god tStart tStop).1,
       Event.engineCreate (convOf (problemAt st i) st.gpus_.headI) ::
         Event.initPlan methodFORWARD ::
         (forward (assignShape st (problemAt st i))
            (convOf (problemAt st i) st.gpus_.headI) god tStart tStop).2.1,
       (forward (assignShape st (problemAt st i))
          (convOf (problemAt st i) st.gpus_.headI) god tStart tStop).2.2) := by
  unfold run
  rw [createCudnnConv_valid st _ i hi]
  simp [assignShape_method, hm]

theorem run_valid_BACKWARD_DATA (st : DriverState) (god : CudnnConv → List Int)
    (tStart tStop i : Int) (hi : validIndex st.problems_ i)
    (hm : st.method_ = methodBACKWARD_DATA) :
    run st god tStart tStop i =
      (.ok (backwardData (assignShape st (problemAt st i))
              (convOf (problemAt st i) st.gpus_.headI) god tStart tStop).1,
       Event.engineCreate (convOf (problemAt st i) st.gpus_.headI) ::
         Event.initPlan methodBACKWARD_DATA ::
         (backwardData (assignShape st (problemAt st i))
            (convOf (problemAt st i) st.gpus_.headI) god tStart tStop).2.1,
       (backwardData (assignShape st (problemAt st i))
          (convOf (problemAt st i) st.gpus_.headI) god tStart tStop).2.2) := by
  unfold run
  rw [createCudnnConv_valid st _ i hi]
  simp [assignShape_method, hm, methodFORWARD, methodBACKWARD_DATA]

theorem run_valid_BACKWARD_FILTER (st : DriverState) (god : CudnnConv → List Int)
    (tStart tStop i : Int) (hi : validIndex st.problems_ i)
    (hm : st.method_ = methodBACKWARD_FILTER) :
    run st god tStart tStop i =
      (.ok (backwardFilter (assignShape st (problemAt st i))
              (convOf (problemAt st i) st.gpus_.headI) god tStart tStop).1,
       Event.engineCreate (convOf (problemAt st i) st.gpus_.headI) ::
         Event.initPlan methodBACKWARD_FILTER ::
         (backwardFilter (assignShape st (problemAt st i))
            (convOf (problemAt st i) st.gpus_.headI) god tStart tStop).2.1,
       (backwardFilter (assignShape st (problemAt st i))
          (convOf (problemAt st i) st.gpus_.headI) god tStart tStop).2.2) := by
  unfold run
  rw [createCudnnConv_valid st _ i hi]
  simp [assignShape_method, hm, methodFORWARD, methodBACKWARD_DATA,
    methodBACKWARD_FILTER]

theorem run_valid_default (st : DriverState) (god : CudnnConv → List Int)
    (tStart tStop i : Int) (hi : validIndex st.problems_ i)
    (hmF : st.method_ ≠ methodFORWARD)
    (hmD : st.method_ ≠ methodBACKWARD_DATA)
    (hmB : st.method_ ≠ methodBACKWARD_FILTER) :
    run st god tStart tStop i =
      (.ok 0, [Event.engineCreate (convOf (problemAt st i) st.gpus_.headI)],
       assignShape st (problemAt st i)) := by
  unfold run
  rw [createCudnnConv_valid st _ i hi]
  simp [assignShape_method, hmF, hmD, hmB]

theorem run_invalid (st : DriverState) (god : CudnnConv → List Int)
    (tStart tStop i : Int) (hi : ¬ validIndex st.problems_ i) :
    run st god tStart tStop i = (.error .indexError, [], st) := by
  unfold run
  rw [createCudnnConv_invalid st _ i hi]

theorem filter_replicate_of_pos (p : Event → Bool) (e : Event) (n : Nat)
    (h : p e = true) :
    (List.replicate n e).filter p = List.replicate n e := by
  induction n with
  | zero => rfl
  | succ m ih => simp [List.replicate, List.filter, h, ih]

theorem filter_replicate_of_neg (p : Event → Bool) (e : Event) (n : Nat)
    (h : p e = false) :
    (List.replicate n e).filter p = [] := by
  induction n with
  | zero => rfl
  | succ m ih => simp [List.replicate, List.filter, h, ih]

theorem assignShape_num_repeats (st : DriverState) (p : ProblemShape) :
    (assignShape st p).num_repeats_ = st.num_repeats_ := rfl

theorem assignShape_gpus (st : DriverState) (p : ProblemShape) :
    (assignShape st p).gpus_ = st.gpus_ := rfl

theorem assignShape_problems (st : DriverState) (p : ProblemShape) :
    (assignShape st p).problems_ = st.problems_ := rfl

/-- C1: for every convolution method and every repeat count of at least one,
the device and clock events of a run trace come in exactly the order: one
warm-up submission, one synchronization barrier, the start-timestamp capture,
num_repeats_ submissions with no barrier between any two of them, one
synchronization barrier, the stop-timestamp capture; and exactly two barriers
are issued in total. -/
theorem C1_timing_protocol_event_order (st : DriverState)
    (god : CudnnConv → List Int) (tStart tStop i : Int)
    (hm : st.method_ = methodFORWARD ∨ st.method_ = methodBACKWARD_DATA ∨
      st.method_ = methodBACKWARD_FILTER)
    (hrep : 1 ≤ st.num_repeats_)
    (hi : validIndex st.problems_ i) :
    (run st god tStart tStop i).2.1.filter isDeviceClockEvent =
      [Event.submit st.method_, Event.sync, Event.clockStart tStart]
      ++ List.replicate st.num_repeats_.toNat (Event.submit st.method_)
      ++ [Event.sync, Event.clockStop tStop]
    ∧ (run st god tStart tStop i).2.1.count Event.sync = 2 := by
  rcases hm with hm | hm | hm
  · rw [run_valid_FORWARD st god tStart tStop i hi hm]
    rw [forward]
    constructor
    · simp [isDeviceClockEvent, List.filter_append, hm, assignShape_num_repeats,
        filter_replicate_of_pos]
    · simp [List.count_append, List.count_replicate, List.count_cons,
        assignShape_num_repeats]
  · rw [run_valid_BACKWARD_DATA st god tStart tStop i hi hm]
    rw [backwardData]
    constructor
    · simp [isDeviceClockEvent, List.filter_append, hm, assignShape_num_repeats,
        filter_replicate_of_pos]
    · simp [List.count_append, List.count_replicate, List.count_cons,
        assignShape_num_repeats]
  · rw [run_valid_BACKWARD_FILTER st god tStart tStop i hi hm]
    rw [backwardFilter]
    constructor
    · simp [isDeviceClockEvent, List.filter_append, hm, assignShape_num_repeats,
        filter_replicate_of_pos]
    · simp [List.count_append, List.count_replicate, List.count_cons,
        assignShape_num_repeats]

/-- C1 witness: a concrete driver (FORWARD, repeat count 3, one problem). -/
theorem C1_timing_protocol_event_order_witness :
    (run { num_repeats_ := 3, curand_seed_ := 42, curand_pos_ := 0,
           method_ := methodFORWARD, problems_ := [defaultShape],
           k_ := 0, c_ := 0, r_ := 0, s_ := 0, n_ := 0, w_ := 0, h_ := 0,
           pad_w_ := 0, pad_h_ := 0, wstride_ := 0, hstride_ := 0,
           gpus_ := [0] }
       (fun _ => [1, 1, 1, 1]) 100 700 0).2.1.filter isDeviceClockEvent =
      [Event.submit methodFORWARD, Event.sync, Event.clockStart 100]
      ++ List.replicate 3 (Event.submit methodFORWARD)
      ++ [Event.sync, Event.clockStop 700] := by
  have h := C1_timing_protocol_event_order
    { num_repeats_ := 3, curand_seed_ := 42, curand_pos_ := 0,
      method_ := methodFORWARD, problems_ := [defaultShape],
      k_ := 0, c_ := 0, r_ := 0, s_ := 0, n_ := 0, w_ := 0, h_ := 0,
      pad_w_ := 0, pad_h_ := 0, wstride_ := 0, hstride_ := 0,
      gpus_ := [0] }
    (fun _ => [1, 1, 1, 1]) 100 700 0 (Or.inl rfl) (by decide) (by decide)
  exact h.1

/-- C2: for every method and repeat count of at least one, the integer run
returns is the elapsed time in microseconds between the captured start and
stop timestamps, divided by num_repeats_, truncated to an integer; the two
timestamps appear as the captured clock events of the trace. -/
theorem C2_result_is_truncated_average (st : DriverState)
    (god : CudnnConv → List Int) (tStart tStop i : Int)
    (hm : st.method_ = methodFORWARD ∨ st.method_ = methodBACKWARD_DATA ∨
      st.method_ = methodBACKWARD_FILTER)
    (hrep : 1 ≤ st.num_repeats_)
    (hi : validIndex st.problems_ i) :
    (run st god tStart tStop i).1 =
      .ok (cppTrunc (elapsedMicro tStart tStop / (st.num_repeats_ : ℚ)))
    ∧ Event.clockStart tStart ∈ (run st god tStart tStop i).2.1
    ∧ Event.clockStop tStop ∈ (run st god tStart tStop i).2.1 := by
  rcases hm with hm | hm | hm
  · rw [run_valid_FORWARD st god tStart tStop i hi hm]
    refine ⟨?_, ?_, ?_⟩ <;>
      simp [forward, reduceTime, assignShape_num_repeats]
  · rw [run_valid_BACKWARD_DATA st god tStart tStop i hi hm]
    refine ⟨?_, ?_, ?_⟩ <;>
      simp [backwardData, reduceTime, assignShape_num_repeats]
  · rw [run_valid_BACKWARD_FILTER st god tStart tStop i hi hm]
    refine ⟨?_, ?_, ?_⟩ <;>
      simp [backwardFilter, reduceTime, assignShape_num_repeats]

/-- C2 witness: at a concrete driver, run returns the truncated average of the
elapsed microseconds over the repeat count. -/
theorem C2_result_is_truncated_average_witness :
    (run { num_repeats_ := 3, curand_seed_ := 42, curand_pos_ := 0,
           method_ := methodBACKWARD_DATA, problems_ := [defaultShape],
           k_ := 0, c_ := 0, r_ := 0, s_ := 0, n_ := 0, w_ := 0, h_ := 0,
           pad_w_ := 0, pad_h_ := 0, wstride_ := 0, hstride_ := 0,
           gpus_ := [1] }
       (fun _ => [2, 2, 2, 2]) 0 10000 0).1 =
      .ok (cppTrunc (elapsedMicro 0 10000 / (3 : ℚ))) := by
  have h := C2_result_is_truncated_average
    { num_repeats_ := 3, curand_seed_ := 42, curand_pos_ := 0,
      method_ := methodBACKWARD_DATA, problems_ := [defaultShape],
      k_ := 0, c_ := 0, r_ := 0, s_ := 0, n_ := 0, w_ := 0, h_ := 0,
      pad_w_ := 0, pad_h_ := 0, wstride_ := 0, hstride_ := 0,
      gpus_ := [1] }
    (fun _ => [2, 2, 2, 2]) 0 10000 0 (Or.inr (Or.inl rfl)) (by decide)
    (by decide)
  exact h.1

/-- C3: an out-of-range problemIndex makes run fail with the IndexError coming
from the catalog lookup, with an empty event trace (no engine construction, no
buffer allocation) and the driver state unchanged. -/
theorem C3_invalid_index_fails_before_any_resource (st : DriverState)
    (god : CudnnConv → List Int) (tStart tStop i : Int)
    (hi : ¬ validIndex st.problems_ i) :
    (run st god tStart tStop i).1 = .error .indexError
    ∧ problemSetGet st.problems_ i = .error .indexError
    ∧ (run st god tStart tStop i).2.1 = []
    ∧ (run st god tStart tStop i).2.2 = st := by
  rw [run_invalid st god tStart tStop i hi]
  refine ⟨rfl, ?_, rfl, rfl⟩
  unfold problemSetGet
  rw [dif_neg hi]

/-- C3 witness: catalog of size 5, problemIndex 7. -/
theorem C3_invalid_index_fails_before_any_resource_witness :
    (run { num_repeats_ := 10, curand_seed_ := 42, curand_pos_ := 0,
           method_ := methodFORWARD,
           problems_ := [defaultShape, defaultShape, defaultShape,
                         defaultShape, defaultShape],
           k_ := 0, c_ := 0, r_ := 0, s_ := 0, n_ := 0, w_ := 0, h_ := 0,
           pad_w_ := 0, pad_h_ := 0, wstride_ := 0, hstride_ := 0,
           gpus_ := [0] }
       (fun _ => [1, 1, 1, 1]) 0 1 7).1 = .error .indexError := by
  have h := C3_invalid_index_fails_before_any_resource
    { num_repeats_ := 10, curand_seed_ := 42, curand_pos_ := 0,
      method_ := methodFORWARD,
      problems_ := [defaultShape, defaultShape, defaultShape,
                    defaultShape, defaultShape],
      k_ := 0, c_ := 0, r_ := 0, s_ := 0, n_ := 0, w_ := 0, h_ := 0,
      pad_w_ := 0, pad_h_ := 0, wstride_ := 0, hstride_ := 0,
      gpus_ := [0] }
    (fun _ => [1, 1, 1, 1]) 0 1 7 (by decide)
  exact h.1

/-- C4 counterexample: the constructor discards the status codes of cudaFree
and curandCreateGenerator, so with both calls failing (nonzero status) the
construction still yields a driver object instead of a construction error,
refuting the claim that construction fails whenever those calls fail. -/
theorem C4_construction_failure_counterexample :
    (1 : Int) ≠ cudaSuccess ∧ (1 : Int) ≠ curandStatusSuccess ∧
    isConstructed (mkCudnnConvDriver methodFORWARD [] 1 [0] 1 1 1) = true := by
  refine ⟨by decide, by decide, rfl⟩

/-- C4 amended: driver construction always succeeds and yields a driver,
whatever status codes the device-context initialization and random-context
creation return, because the constructor discards those statuses. -/
theorem C4_construction_always_succeeds (method : Int)
    (problems : List ProblemShape) (numRuns : Int) (gpus : List Int)
    (cudaFreeStatus curandCreateStatus curandSeedStatus : Int) :
    isConstructed (mkCudnnConvDriver method problems numRuns gpus
      cudaFreeStatus curandCreateStatus curandSeedStatus) = true := rfl

/-- C5: each routine allocates exactly three buffers — two random-filled and
one zero-initialized — and exactly one of them is shaped by the engine
get_output_dims query: the zero-initialized output for FORWARD, the random
delta for BACKWARD_DATA and BACKWARD_FILTER; the other shapes come from the
resolved problem parameters. -/
theorem C5_buffer_allocation_pattern (st : DriverState)
    (god : CudnnConv → List Int) (tStart tStop i : Int)
    (hi : validIndex st.problems_ i) :
    (st.method_ = methodFORWARD →
      (run st god tStart tStop i).2.1.filter isAllocEvent =
        [Event.allocRand [(problemAt st i).r, (problemAt st i).s,
           (problemAt st i).c, (problemAt st i).k],
         Event.allocRand [(problemAt st i).w, (problemAt st i).h,
           (problemAt st i).c, (problemAt st i).n],
         Event.allocZeros (god (convOf (problemAt st i) st.gpus_.headI))])
    ∧ (st.method_ = methodBACKWARD_DATA →
      (run st god tStart tStop i).2.1.filter isAllocEvent =
        [Event.allocRand [(problemAt st i).r, (problemAt st i).s,
           (problemAt st i).c, (problemAt st i).k],
         Event.allocRand (god (convOf (problemAt st i) st.gpus_.headI)),
         Event.allocZeros [(problemAt st i).w, (problemAt st i).h,
           (problemAt st i).c, (problemAt st i).n]])
    ∧ (st.method_ = methodBACKWARD_FILTER →
      (run st god tStart tStop i).2.1.filter isAllocEvent =
        [Event.allocRand [(problemAt st i).w, (problemAt st i).h,
           (problemAt st i).c, (problemAt st i).n],
         Event.allocRand (god (convOf (problemAt st i) st.gpus_.headI)),
         Event.allocZeros [(problemAt st i).r, (problemAt st i).s,
           (problemAt st i).c, (problemAt st i).k]]) := by
  refine ⟨fun hm => ?_, fun hm => ?_, fun hm => ?_⟩
  · rw [run_valid_FORWARD st god tStart tStop i hi hm]
    simp [forward, assignShape, isAllocEvent, List.filter_append,
      filter_replicate_of_neg]
  · rw [run_valid_BACKWARD_DATA st god tStart tStop i hi hm]
    simp [backwardData, assignShape, isAllocEvent, List.filter_append,
      filter_replicate_of_neg]
  · rw [run_valid_BACKWARD_FILTER st god tStart tStop i hi hm]
    simp [backwardFilter, assignShape, isAllocEvent, List.filter_append,
      filter_replicate_of_neg]

/-- C5 witness: concrete BACKWARD_FILTER driver on a concrete problem. -/
theorem C5_buffer_allocation_pattern_witness :
    (run { num_repeats_ := 2, curand_seed_ := 42, curand_pos_ := 0,
           method_ := methodBACKWARD_FILTER,
           problems_ := [{ w := 5, h := 5, c := 3, n := 1, k := 2, r := 3,
                           s := 3, pad_w := 0, pad_h := 0, wstride := 1,
                           hstride := 1 }],
           k_ := 0, c_ := 0, r_ := 0, s_ := 0, n_ := 0, w_ := 0, h_ := 0,
           pad_w_ := 0, pad_h_ := 0, wstride_ := 0, hstride_ := 0,
           gpus_ := [0] }
       (fun _ => [1, 2, 3, 3]) 0 1 0).2.1.filter isAllocEvent =
      [Event.allocRand [5, 5, 3, 1], Event.allocRand [1, 2, 3, 3],
       Event.allocZeros [3, 3, 3, 2]] := by
  have h := C5_buffer_allocation_pattern
    { num_repeats_ := 2, curand_seed_ := 42, curand_pos_ := 0,
      method_ := methodBACKWARD_FILTER,
      problems_ := [{ w := 5, h := 5, c := 3, n := 1, k := 2, r := 3,
                      s := 3, pad_w := 0, pad_h := 0, wstride := 1,
                      hstride := 1 }],
      k_ := 0, c_ := 0, r_ := 0, s_ := 0, n_ := 0, w_ := 0, h_ := 0,
      pad_w_ := 0, pad_h_ := 0, wstride_ := 0, hstride_ := 0,
      gpus_ := [0] }
    (fun _ => [1, 2, 3, 3]) 0 1 0 (by decide)
  exact h.2.2 rfl

theorem run_config_frame (st : DriverState) (god : CudnnConv → List Int)
    (tStart tStop i : Int) :
    ((run st god tStart tStop i).2.2.method_ = st.method_)
    ∧ ((run st god tStart tStop i).2.2.num_repeats_ = st.num_repeats_)
    ∧ ((run st god tStart tStop i).2.2.gpus_ = st.gpus_)
    ∧ ((run st god tStart tStop i).2.2.problems_ = st.problems_) := by
  by_cases hi : validIndex st.problems_ i
  · by_cases hF : st.method_ = methodFORWARD
    · rw [run_valid_FORWARD st god tStart tStop i hi hF]
      simp [forward, assignShape]
    · by_cases hD : st.method_ = methodBACKWARD_DATA
      · rw [run_valid_BACKWARD_DATA st god tStart tStop i hi hD]
        simp [backwardData, assignShape]
      · by_cases hB : st.method_ = methodBACKWARD_FILTER
        · rw [run_valid_BACKWARD_FILTER st god tStart tStop i hi hB]
          simp [backwardFilter, assignShape]
        · rw [run_valid_default st god tStart tStop i hi hF hD hB]
          simp [assignShape]
  · rw [run_invalid st god tStart tStop i hi]
    exact ⟨rfl, rfl, rfl, rfl⟩

theorem run_engine_once (st : DriverState) (god : CudnnConv → List Int)
    (tStart tStop i : Int) (hi : validIndex st.problems_ i) :
    (run st god tStart tStop i).2.1.filter isEngineCreate =
      [Event.engineCreate (convOf (problemAt st i) st.gpus_.headI)] := by
  by_cases hF : st.method_ = methodFORWARD
  · rw [run_valid_FORWARD st god tStart tStop i hi hF]
    simp [forward, isEngineCreate, List.filter_append, filter_replicate_of_neg]
  · by_cases hD : st.method_ = methodBACKWARD_DATA
    · rw [run_valid_BACKWARD_DATA st god tStart tStop i hi hD]
      simp [backwardData, isEngineCreate, List.filter_append,
        filter_replicate_of_neg]
    · by_cases hB : st.method_ = methodBACKWARD_FILTER
      · rw [run_valid_BACKWARD_FILTER st god tStart tStop i hi hB]
        simp [backwardFilter, isEngineCreate, List.filter_append,
          filter_replicate_of_neg]
      · rw [run_valid_default st god tStart tStop i hi hF hD hB]
        simp [isEngineCreate]

/-- C6: every successful run call constructs exactly one engine, built from
the shape resolved for problemIndex and the first device identifier of the
configured device list; a second run call constructs its own single engine
again rather than reusing one. -/
theorem C6_exactly_one_engine_per_call (st : DriverState)
    (god : CudnnConv → List Int) (tStart tStop tStart2 tStop2 i i2 : Int)
    (hi : validIndex st.problems_ i)
    (hi2 : validIndex st.problems_ i2) :
    (run st god tStart tStop i).2.1.filter isEngineCreate =
      [Event.engineCreate (convOf (problemAt st i) st.gpus_.headI)]
    ∧ (run ((run st god tStart tStop i).2.2) god tStart2 tStop2 i2).2.1.filter
        isEngineCreate =
      [Event.engineCreate
        (convOf (problemAt ((run st god tStart tStop i).2.2) i2)
          ((run st god tStart tStop i).2.2).gpus_.headI)] := by
  refine ⟨run_engine_once st god tStart tStop i hi, ?_⟩
  apply run_engine_once
  rw [(run_config_frame st god tStart tStop i).2.2.2]
  exact hi2

/-- C6 witness: two successive calls on a concrete driver each create exactly
one engine. -/
theorem C6_exactly_one_engine_per_call_witness :
    (run { num_repeats_ := 1, curand_seed_ := 42, curand_pos_ := 0,
           method_ := methodFORWARD, problems_ := [defaultShape],
           k_ := 0, c_ := 0, r_ := 0, s_ := 0, n_ := 0, w_ := 0, h_ := 0,
           pad_w_ := 0, pad_h_ := 0, wstride_ := 0, hstride_ := 0,
           gpus_ := [4, 9] }
       (fun _ => [1]) 0 1 0).2.1.filter isEngineCreate =
      [Event.engineCreate (convOf defaultShape 4)] := by
  have h := C6_exactly_one_engine_per_call
    { num_repeats_ := 1, curand_seed_ := 42, curand_pos_ := 0,
      method_ := methodFORWARD, problems_ := [defaultShape],
      k_ := 0, c_ := 0, r_ := 0, s_ := 0, n_ := 0, w_ := 0, h_ := 0,
      pad_w_ := 0, pad_h_ := 0, wstride_ := 0, hstride_ := 0,
      gpus_ := [4, 9] }
    (fun _ => [1]) 0 1 2 3 0 0 (by decide) (by decide)
  exact h.1

/-- C7: run leaves the driver configuration unchanged — method, repeat count,
device list and problem catalog have the same values after the call as before,
including after two successive run calls. -/
theorem C7_run_preserves_configuration (st : DriverState)
    (god : CudnnConv → List Int) (tStart tStop tStart2 tStop2 i i2 : Int) :
    ((run st god tStart tStop i).2.2.method_ = st.method_)
    ∧ ((run st god tStart tStop i).2.2.num_repeats_ = st.num_repeats_)
    ∧ ((run st god tStart tStop i).2.2.gpus_ = st.gpus_)
    ∧ ((run st god tStart tStop i).2.2.problems_ = st.problems_)
    ∧ ((run ((run st god tStart tStop i).2.2) god tStart2 tStop2 i2).2.2.method_
        = st.method_)
    ∧ ((run ((run st god tStart tStop i).2.2) god tStart2 tStop2
          i2).2.2.num_repeats_ = st.num_repeats_)
    ∧ ((run ((run st god tStart tStop i).2.2) god tStart2 tStop2 i2).2.2.gpus_
        = st.gpus_)
    ∧ ((run ((run st god tStart tStop i).2.2) god tStart2 tStop2
          i2).2.2.problems_ = st.problems_) := by
  have h1 := run_config_frame st god tStart tStop i
  have h2 := run_config_frame ((run st god tStart tStop i).2.2) god tStart2
    tStop2 i2
  refine ⟨h1.1, h1.2.1, h1.2.2.1, h1.2.2.2, ?_, ?_, ?_, ?_⟩
  · rw [h2.1, h1.1]
  · rw [h2.2.1, h1.2.1]
  · rw [h2.2.2.1, h1.2.2.1]
  · rw [h2.2.2.2, h1.2.2.2]

theorem reduceTime_nonneg (tStart tStop reps : Int) (ht : tStart ≤ tStop)
    (hrep : 0 < reps) :
    0 ≤ reduceTime tStart tStop reps := by
  have hq : (0 : ℚ) ≤ elapsedMicro tStart tStop / (reps : ℚ) := by
    apply div_nonneg
    · unfold elapsedMicro
      apply div_nonneg
      · exact_mod_cast sub_nonneg.mpr ht
      · norm_num
    · exact_mod_cast le_of_lt hrep
  unfold reduceTime cppTrunc
  rw [if_pos hq]
  exact Int.le_floor.mpr (by exact_mod_cast hq)

/-- C8: for every valid problemIndex and repeat count of at least one, and
stop timestamp no earlier than the start timestamp, run returns a non-negative
integer. -/
theorem C8_result_nonneg (st : DriverState) (god : CudnnConv → List Int)
    (tStart tStop i : Int) (hi : validIndex st.problems_ i)
    (hrep : 1 ≤ st.num_repeats_) (ht : tStart ≤ tStop) :
    ∃ v, (run st god tStart tStop i).1 = .ok v ∧ 0 ≤ v := by
  have hpos : 0 < st.num_repeats_ := hrep
  by_cases hF : st.method_ = methodFORWARD
  · rw [run_valid_FORWARD st god tStart tStop i hi hF]
    exact ⟨_, rfl, reduceTime_nonneg tStart tStop st.num_repeats_ ht hpos⟩
  · by_cases hD : st.method_ = methodBACKWARD_DATA
    · rw [run_valid_BACKWARD_DATA st god tStart tStop i hi hD]
      exact ⟨_, rfl, reduceTime_nonneg tStart tStop st.num_repeats_ ht hpos⟩
    · by_cases hB : st.method_ = methodBACKWARD_FILTER
      · rw [run_valid_BACKWARD_FILTER st god tStart tStop i hi hB]
        exact ⟨_, rfl, reduceTime_nonneg tStart tStop st.num_repeats_ ht hpos⟩
      · rw [run_valid_default st god tStart tStop i hi hF hD hB]
        exact ⟨0, rfl, le_refl 0⟩

/-- C8 witness: a concrete run returns a non-negative value. -/
theorem C8_result_nonneg_witness :
    ∃ v, (run { num_repeats_ := 2, curand_seed_ := 42, curand_pos_ := 0,
                method_ := methodBACKWARD_FILTER, problems_ := [defaultShape],
                k_ := 0, c_ := 0, r_ := 0, s_ := 0, n_ := 0, w_ := 0, h_ := 0,
                pad_w_ := 0, pad_h_ := 0, wstride_ := 0, hstride_ := 0,
                gpus_ := [0] }
           (fun _ => [1]) 5 905 0).1 = .ok v ∧ 0 ≤ v :=
  C8_result_nonneg
    { num_repeats_ := 2, curand_seed_ := 42, curand_pos_ := 0,
      method_ := methodBACKWARD_FILTER, problems_ := [defaultShape],
      k_ := 0, c_ := 0, r_ := 0, s_ := 0, n_ := 0, w_ := 0, h_ := 0,
      pad_w_ := 0, pad_h_ := 0, wstride_ := 0, hstride_ := 0,
      gpus_ := [0] }
    (fun _ => [1]) 5 905 0 (by decide) (by decide) (by decide)

/-- C9: when method_ holds none of the three enumerator values, run still
constructs one engine from the resolved problem, but its trace contains no
plan setup, no buffer allocation, no submission and no synchronization event,
and it returns 0. -/
theorem C9_unknown_method_returns_zero (st : DriverState)
    (god : CudnnConv → List Int) (tStart tStop i : Int)
    (hmF : st.method_ ≠ methodFORWARD)
    (hmD : st.method_ ≠ methodBACKWARD_DATA)
    (hmB : st.method_ ≠ methodBACKWARD_FILTER)
    (hi : validIndex st.problems_ i) :
    (run st god tStart tStop i).1 = .ok 0
    ∧ (run st god tStart tStop i).2.1 =
        [Event.engineCreate (convOf (problemAt st i) st.gpus_.headI)] := by
  rw [run_valid_default st god tStart tStop i hi hmF hmD hmB]
  exact ⟨rfl, rfl⟩

/-- C9 witness: method value 3 on a concrete driver. -/
theorem C9_unknown_method_returns_zero_witness :
    (run { num_repeats_ := 4, curand_seed_ := 42, curand_pos_ := 0,
           method_ := 3, problems_ := [defaultShape],
           k_ := 0, c_ := 0, r_ := 0, s_ := 0, n_ := 0, w_ := 0, h_ := 0,
           pad_w_ := 0, pad_h_ := 0, wstride_ := 0, hstride_ := 0,
           gpus_ := [0] }
       (fun _ => [1]) 0 1 0).1 = .ok 0 := by
  have h := C9_unknown_method_returns_zero
    { num_repeats_ := 4, curand_seed_ := 42, curand_pos_ := 0,
      method_ := 3, problems_ := [defaultShape],
      k_ := 0, c_ := 0, r_ := 0, s_ := 0, n_ := 0, w_ := 0, h_ := 0,
      pad_w_ := 0, pad_h_ := 0, wstride_ := 0, hstride_ := 0,
      gpus_ := [0] }
    (fun _ => [1]) 0 1 0 (by decide) (by decide) (by decide) (by decide)
  exact h.1

/-- C10: under the construction preconditions (repeat count at least one,
non-empty device list), the access to the first device of the list is within
bounds (head? is some, agreeing with the defaulted headI the model uses), the
repeat count stored in the driver is strictly positive, and each measurement
routine reduces by dividing by exactly that strictly positive stored repeat
count, so no reduction divides by zero. -/
theorem C10_preconditions_rule_out_division_by_zero (method : Int)
    (problems : List ProblemShape) (numRuns : Int) (gpus : List Int)
    (s1 s2 s3 : Int) (st : DriverState)
    (hrep : 1 ≤ numRuns) (hg : gpus ≠ [])
    (hmk : mkCudnnConvDriver method problems numRuns gpus s1 s2 s3 = .ok st) :
    st.gpus_.head? = some st.gpus_.headI
    ∧ 0 < st.num_repeats_
    ∧ (∀ p conv god tStart tStop,
        (forward (assignShape st p) conv god tStart tStop).1 =
          reduceTime tStart tStop st.num_repeats_
        ∧ (backwardData (assignShape st p) conv god tStart tStop).1 =
          reduceTime tStart tStop st.num_repeats_
        ∧ (backwardFilter (assignShape st p) conv god tStart tStop).1 =
          reduceTime tStart tStop st.num_repeats_) := by
  have hst : st =
      { num_repeats_ := numRuns, curand_seed_ := 42,
        curand_pos_ := 0, method_ := method, problems_ := problems,
        k_ := 0, c_ := 0, r_ := 0, s_ := 0, n_ := 0, w_ := 0, h_ := 0,
        pad_w_ := 0, pad_h_ := 0, wstride_ := 0, hstride_ := 0,
        gpus_ := gpus } := by
    unfold mkCudnnConvDriver at hmk
    exact (Except.ok.inj hmk).symm
  subst hst
  refine ⟨?_, hrep, ?_⟩
  · cases gpus with
    | nil => exact absurd rfl hg
    | cons a t => rfl
  · intro p conv god tStart tStop
    exact ⟨rfl, rfl, rfl⟩

/-- C10 witness: concrete construction with repeat count 1 and device list
containing the single device 0. -/
theorem C10_preconditions_rule_out_division_by_zero_witness :
    ([(0 : Int)].head? = some ([(0 : Int)].headI)) ∧ (0 : Int) < 1 := by
  have h := C10_preconditions_rule_out_division_by_zero methodFORWARD []
    1 [0] 0 0 0
    { num_repeats_ := 1, curand_seed_ := 42, curand_pos_ := 0,
      method_ := methodFORWARD, problems_ := [],
      k_ := 0, c_ := 0, r_ := 0, s_ := 0, n_ := 0, w_ := 0, h_ := 0,
      pad_w_ := 0, pad_h_ := 0, wstride_ := 0, hstride_ := 0,
      gpus_ := [0] }
    (by decide) (by decide) rfl
  exact ⟨h.1, h.2.1⟩
